import Mathlib

/-!
# LumiRum IoT client — verification of the lighting decision core

Shallow embedding of the decision core of `src/iot/src/main.cpp` together
with the constants of `src/iot/src/config.h`.  Wall-clock instants
(`time_t`) are modelled as mathematical integers, uptime milliseconds
(`millis()`, an `unsigned long` that is monotone within a session) as
natural numbers.  The single place where the C code uses `float`
arithmetic — the linear interpolation inside `getCurrentColorTemp` — is
modelled as exact rational arithmetic truncated toward zero
(`Int.tdiv`), matching the `(int)` cast of the source on every value the
development evaluates.
-/

namespace LumiRum

/-! ## Constants from `config.h` -/

def API_MAX_SCHEDULE_SIZE : Nat := 96

def API_KEY_LENGTH : Nat := 64

def BUTTON_DEBOUNCE_MS : Nat := 200

def TIME_JUMP_REFETCH_THRESHOLD_SEC : Int := 3600

def MIN_COLOR_TEMP_K : Int := 1000

def DEFAULT_COLOR_TEMP_K : Int := 3500

def ANALOG_MAX_VALUE : Int := 4095

def BRIGHTNESS_OFF_THRESHOLD_PERCENT : Int := 10

def BRIGHTNESS_CHANGE_THRESHOLD_PERCENT : Int := 5

/-! ## Data model (`struct DeviceState`, `struct LightingSchedule`) -/

structure SchedulePoint where
  timestamp : Int
  colorTemp : Int
  deriving Repr, DecidableEq

structure LightingSchedule where
  profileId : Int
  sleepStartUtcSeconds : Nat
  sleepEndUtcSeconds : Nat
  minColorTemp : Int
  maxColorTemp : Int
  nightModeEnabled : Bool
  motionTimeoutSeconds : Int
  generatedAt : Int
  validUntil : Int
  points : List SchedulePoint
  deriving Repr, DecidableEq

/-- The C++ default member initializers of `LightingSchedule`
(`pointCount = 0` is modelled by the empty point list). -/
def initialSchedule : LightingSchedule :=
  { profileId := 0
    sleepStartUtcSeconds := 0
    sleepEndUtcSeconds := 0
    minColorTemp := DEFAULT_COLOR_TEMP_K
    maxColorTemp := 6500
    nightModeEnabled := false
    motionTimeoutSeconds := 300
    generatedAt := 0
    validUntil := 0
    points := [] }

structure DeviceState where
  modeAuto : Bool
  lightIsOn : Bool
  currentBrightnessPercent : Int
  currentColorTemp : Int
  motionLastSeenMs : Nat
  lastKnownTimeSeconds : Int
  scheduleLoaded : Bool
  scheduleExpiredWarned : Bool
  deriving Repr, DecidableEq

/-- The C++ default member initializers of `DeviceState`. -/
def initialState : DeviceState :=
  { modeAuto := true
    lightIsOn := false
    currentBrightnessPercent := 0
    currentColorTemp := DEFAULT_COLOR_TEMP_K
    motionLastSeenMs := 0
    lastKnownTimeSeconds := 0
    scheduleLoaded := false
    scheduleExpiredWarned := false }

/-! ## Schedule lookup (`getCurrentColorTemp`, `isNightTime`) -/

/-- Model of `gmtime_r` followed by `hour*3600 + min*60 + sec`: the day-seconds of
an instant; for the non-negative epoch instants the device handles this
is exactly `t mod 86400`. -/
def daySeconds (t : Int) : Nat := (t % 86400).toNat

/-- Embeds `isNightTime()` from `main.cpp`, with the current instant passed
explicitly instead of read from `time(nullptr)`. -/
def isNightTime (sched : LightingSchedule) (now : Int) : Bool :=
  let s := daySeconds now
  if sched.sleepStartUtcSeconds ≤ sched.sleepEndUtcSeconds then
    decide (sched.sleepStartUtcSeconds ≤ s) && decide (s < sched.sleepEndUtcSeconds)
  else
    decide (sched.sleepStartUtcSeconds ≤ s) || decide (s < sched.sleepEndUtcSeconds)

/-- The scan of consecutive point pairs in `getCurrentColorTemp`:
returns the first pair `(points[i], points[i+1])` whose day-seconds
satisfy `daySeconds1 ≤ currentDaySeconds < daySeconds2`, or `none` when
no pair matches (the flat last-point fallback is then taken). -/
def findSegment : List SchedulePoint → Nat → Option (SchedulePoint × SchedulePoint)
  | p1 :: p2 :: rest, cur =>
    if daySeconds p1.timestamp ≤ cur ∧ cur < daySeconds p2.timestamp then
      some (p1, p2)
    else findSegment (p2 :: rest) cur
  | _, _ => none

/-- The linear interpolation of the matched pair:
`temp1 + (int)(progress * (temp2 - temp1))` with
`progress = (currentDaySeconds - daySeconds1) / (daySeconds2 - daySeconds1)`,
modelled as exact rational arithmetic truncated toward zero. -/
def interpSegment (p1 p2 : SchedulePoint) (cur : Nat) : Int :=
  p1.colorTemp +
    Int.tdiv (((cur : Int) - (daySeconds p1.timestamp : Int)) * (p2.colorTemp - p1.colorTemp))
      ((daySeconds p2.timestamp : Int) - (daySeconds p1.timestamp : Int))

/-- Embeds `getCurrentColorTemp()` from `main.cpp` (the returned value; the
one-time expired warning only mutates `scheduleExpiredWarned`, captured
separately by `lookupWarned`). -/
def getCurrentColorTemp (st : DeviceState) (sched : LightingSchedule) (now : Int) : Int :=
  if !st.scheduleLoaded || sched.points.length == 0 then
    DEFAULT_COLOR_TEMP_K
  else if sched.nightModeEnabled && isNightTime sched now then
    MIN_COLOR_TEMP_K
  else
    let cur := daySeconds now
    match findSegment sched.points cur with
    | some (p1, p2) => interpSegment p1 p2 cur
    | none => (sched.points.getLastD { timestamp := 0, colorTemp := DEFAULT_COLOR_TEMP_K }).colorTemp

/-- The `scheduleExpiredWarned` flag after a call to
`getCurrentColorTemp()` (set once when `now > validUntil` is reached on
the interpolation path). -/
def lookupWarned (st : DeviceState) (sched : LightingSchedule) (now : Int) : Bool :=
  if !st.scheduleLoaded || sched.points.length == 0 then
    st.scheduleExpiredWarned
  else if sched.nightModeEnabled && isNightTime sched now then
    st.scheduleExpiredWarned
  else if now > sched.validUntil then true
  else st.scheduleExpiredWarned

/-! ## Concrete schedules used as test vectors -/

/-- A device state with a schedule marked loaded. -/
def loadedState : DeviceState := { initialState with scheduleLoaded := true }

/-- The two-point schedule of §8 of the spec: day-seconds 0 at 2700K and
day-seconds 43200 at 6500K, night override disabled. -/
def twoPointSchedule : LightingSchedule :=
  { initialSchedule with
    profileId := 1
    nightModeEnabled := false
    validUntil := 4102444800
    points := [{ timestamp := 0, colorTemp := 2700 },
               { timestamp := 43200, colorTemp := 6500 }] }

/-! ## Time-jump reconciliation (`handleTimeJump`) -/

/-- Modulus of a 32-bit `unsigned long` on the ESP32-C3 (ILP32): 2^32. -/
def UNSIGNED_LONG_MOD : Int := 4294967296

/-- Embeds `handleTimeJump()` from `main.cpp`.  Returns the updated state and
whether a schedule refetch was triggered (`fetchSchedule()` call).
`timeDiff` is `labs(now - lastKnownTimeSeconds)`.  The light-expiry
check recomputes the elapsed time since last-seen motion with the new
`now` as `(now - motionLastSeenMs / 1000) * 1000`, but the source
stores that value in a 32-bit `unsigned long` and compares it unsigned
against `(unsigned long)motionTimeoutSeconds * 1000`, so both sides are
reduced mod 2^32 (`Int.emod` yields exactly the unsigned
representative). -/
def handleTimeJump (st : DeviceState) (sched : LightingSchedule) (now : Int) :
    DeviceState × Bool :=
  let timeDiff : Int := (now - st.lastKnownTimeSeconds).natAbs
  if timeDiff > sched.motionTimeoutSeconds then
    let st1 :=
      if st.lightIsOn && st.modeAuto then
        let timeSinceMotion : Int :=
          ((now - ((st.motionLastSeenMs / 1000 : Nat) : Int)) * 1000) % UNSIGNED_LONG_MOD
        let timeoutMs : Int :=
          ((sched.motionTimeoutSeconds % UNSIGNED_LONG_MOD) * 1000) % UNSIGNED_LONG_MOD
        if timeSinceMotion > timeoutMs then
          { st with lightIsOn := false }
        else st
      else st
    let refetch : Bool := decide (now > st.lastKnownTimeSeconds + TIME_JUMP_REFETCH_THRESHOLD_SEC)
    ({ st1 with lastKnownTimeSeconds := now }, refetch)
  else
    ({ st with lastKnownTimeSeconds := now }, false)

/-! ## Telemetry events emitted by the handlers -/

inductive Event where
  | motionDetected
  | motionTimeout
  | modeChange
  deriving Repr, DecidableEq

/-! ## Button handler (`handleButton`) -/

/-- The `static` locals of `handleButton()`: previous sampled level
(`true` = HIGH) and the uptime of the last accepted press. -/
structure ButtonCtx where
  lastButtonState : Bool
  lastButtonPressMs : Nat
  deriving Repr, DecidableEq

/-- Embeds `handleButton()` from `main.cpp`: a press is accepted on a falling
edge (`LOW` now, `HIGH` before) with more than `BUTTON_DEBOUNCE_MS`
elapsed since the last accepted press; an accepted press toggles
`modeAuto`, forces the light off on entering Auto and on at
`DEFAULT_COLOR_TEMP_K` on entering Manual, and emits a `mode_change`
telemetry event.  `level = true` models a HIGH read. -/
def handleButton (ctx : ButtonCtx) (st : DeviceState) (level : Bool) (nowMs : Nat) :
    ButtonCtx × DeviceState × List Event :=
  if !level && ctx.lastButtonState && decide (nowMs - ctx.lastButtonPressMs > BUTTON_DEBOUNCE_MS) then
    let st1 := { st with modeAuto := !st.modeAuto }
    let st2 :=
      if st1.modeAuto then { st1 with lightIsOn := false }
      else { st1 with lightIsOn := true, currentColorTemp := DEFAULT_COLOR_TEMP_K }
    ({ lastButtonState := level, lastButtonPressMs := nowMs }, st2, [Event.modeChange])
  else
    ({ lastButtonState := level, lastButtonPressMs := ctx.lastButtonPressMs }, st, [])

/-! ## Motion handler (`handleMotion`) -/

/-- Embeds `handleMotion()` from `main.cpp`.  `motion` is the PIR level this
tick, `nowMs` the uptime (`millis()`), `nowSec` the wall clock read by
the schedule lookup.  The timeout comparison
`millis() - motionLastSeenMs > (unsigned long)timeout * 1000` is
modelled on `Nat` (uptime is monotone within a session, so no wrap). -/
def handleMotion (st : DeviceState) (sched : LightingSchedule) (motion : Bool)
    (nowMs : Nat) (nowSec : Int) : DeviceState × List Event :=
  if !st.modeAuto then (st, [])
  else if motion then
    let evts := if !st.lightIsOn then [Event.motionDetected] else []
    ({ st with
        lightIsOn := true
        motionLastSeenMs := nowMs
        currentColorTemp := getCurrentColorTemp st sched nowSec
        scheduleExpiredWarned := lookupWarned st sched nowSec }, evts)
  else if st.lightIsOn && decide (nowMs - st.motionLastSeenMs > sched.motionTimeoutSeconds.toNat * 1000) then
    ({ st with lightIsOn := false }, [Event.motionTimeout])
  else (st, [])

/-- One polled motion tick: PIR level, uptime, wall clock. -/
structure MotionTick where
  motion : Bool
  nowMs : Nat
  nowSec : Int
  deriving Repr, DecidableEq

/-- Fold of `handleMotion` over a sequence of ticks, accumulating the
emitted telemetry events in order. -/
def runMotion (st : DeviceState) (sched : LightingSchedule) :
    List MotionTick → DeviceState × List Event
  | [] => (st, [])
  | t :: rest =>
    let r := handleMotion st sched t.motion t.nowMs t.nowSec
    let rr := runMotion r.1 sched rest
    (rr.1, r.2 ++ rr.2)

/-! ## Potentiometer handler (`handleBrightnessPot`) -/

/-- Arduino's `map()` helper (integer arithmetic, C `/` truncates toward
zero). -/
def arduinoMap (x inMin inMax outMin outMax : Int) : Int :=
  Int.tdiv ((x - inMin) * (outMax - outMin)) (inMax - inMin) + outMin

/-- Embeds `handleBrightnessPot()` from `main.cpp`: the raw ADC value is mapped
to percent; at or below the off threshold the light is forced off when
not in Auto and the stored brightness is cleared (early return, so the
hysteresis check is bypassed); above the threshold a Manual-mode light
that is off is turned back on, and the stored brightness is committed
only when the change exceeds the hysteresis band. -/
def handleBrightnessPot (st : DeviceState) (potValue : Int) : DeviceState :=
  let brightness := arduinoMap potValue 0 ANALOG_MAX_VALUE 0 100
  if brightness ≤ BRIGHTNESS_OFF_THRESHOLD_PERCENT then
    let st1 := if st.lightIsOn && !st.modeAuto then { st with lightIsOn := false } else st
    { st1 with currentBrightnessPercent := 0 }
  else
    let st1 :=
      if !st.modeAuto && !st.lightIsOn && decide (brightness > BRIGHTNESS_OFF_THRESHOLD_PERCENT) then
        { st with lightIsOn := true }
      else st
    if ((brightness - st1.currentBrightnessPercent).natAbs : Int) > BRIGHTNESS_CHANGE_THRESHOLD_PERCENT then
      { st1 with currentBrightnessPercent := brightness }
    else st1

/-! ## Schedule fetch (`fetchSchedule`)

The network transport and ArduinoJson are external collaborators; what
is embedded is the decision structure of `fetchSchedule()`: which
outcomes discard the payload and which commit it.  A `strptime` call
whose result the code never checks is modelled by an `Option Int` parse
result; on `none` the code feeds an uninitialized `struct tm` to
`mktime`, so the committed value is arbitrary — the model takes it as an
explicit parameter `g`. -/

structure RawPoint where
  utcParse : Option Int
  temp : Int
  deriving Repr, DecidableEq

structure RawPayload where
  jsonValid : Bool
  profileId : Int
  sleepStart : Nat
  sleepEnd : Nat
  minColorTemp : Int
  maxColorTemp : Int
  nightModeEnabled : Bool
  motionTimeoutSeconds : Int
  generatedAtParse : Option Int
  validUntilParse : Option Int
  points : List RawPoint
  deriving Repr, DecidableEq

/-- What a fetch attempt yields this tick (the HTTP collaborator's
report): no WiFi, a 401, a payload, or another HTTP error code. -/
inductive FetchOutcome where
  | noWifi
  | unauthorized
  | ok (p : RawPayload)
  | httpError (code : Int)
  deriving Repr, DecidableEq

/-- The schedule committed by the HTTP 200 / valid-JSON path of
`fetchSchedule()`: every field is assigned unconditionally;
`pointCount = min(size, API_MAX_SCHEDULE_SIZE)` is the `take`; a failed
`strptime` leaves the arbitrary value `g` in the timestamp. -/
def commitPayload (g : Int) (p : RawPayload) : LightingSchedule :=
  { profileId := p.profileId
    sleepStartUtcSeconds := p.sleepStart
    sleepEndUtcSeconds := p.sleepEnd
    minColorTemp := p.minColorTemp
    maxColorTemp := p.maxColorTemp
    nightModeEnabled := p.nightModeEnabled
    motionTimeoutSeconds := p.motionTimeoutSeconds
    generatedAt := p.generatedAtParse.getD g
    validUntil := p.validUntilParse.getD g
    points := (p.points.take API_MAX_SCHEDULE_SIZE).map
      fun rp => { timestamp := rp.utcParse.getD g, colorTemp := rp.temp } }

/-! ## Top-level device (`loop`, `enterConfigMode`, serial commands) -/

/-- Whole-device state: the global flags and objects of `main.cpp`
(`isInConfigMode`, `state`, `schedule`, the button statics, the NVS
key).  `halted` models `ESP.restart()`: the running process is over and
no further transition occurs in it. -/
structure Sys where
  isInConfigMode : Bool
  halted : Bool
  st : DeviceState
  sched : LightingSchedule
  btn : ButtonCtx
  storedKey : Option String
  deriving Repr, DecidableEq

/-- Embeds `enterConfigMode()` from `main.cpp`: idempotent; sets the config
flag and forces the fixed warning light (on, `MIN_COLOR_TEMP_K`, 50%). -/
def enterConfigModeSys (s : Sys) : Sys :=
  if s.isInConfigMode then s
  else
    { s with
      isInConfigMode := true
      st := { s.st with
                lightIsOn := true
                currentColorTemp := MIN_COLOR_TEMP_K
                currentBrightnessPercent := 50 } }

/-- The effect of one `fetchSchedule()` call on the device, given the
collaborator's outcome: no WiFi and HTTP errors leave everything
unchanged, a 401 enters config mode, invalid JSON is discarded, and an
HTTP 200 with valid JSON commits the payload wholesale and marks the
schedule loaded. -/
def fetchApply (g : Int) (out : FetchOutcome) (s : Sys) : Sys :=
  match out with
  | .noWifi => s
  | .unauthorized => enterConfigModeSys s
  | .httpError _ => s
  | .ok p =>
    if p.jsonValid then
      { s with
        sched := commitPayload g p
        st := { s.st with scheduleLoaded := true, scheduleExpiredWarned := false } }
    else s

/-- A serial command on the diagnostic channel (`setSerialCommands`). -/
inductive SerialCmd where
  | status
  | fetchCmd
  | resetKey
  | timeSet (t : Int)
  | other
  deriving Repr, DecidableEq

/-- The inputs sampled by one iteration of `loop()`. `fetchOutcome` is
what any fetch attempted this tick would yield; `telemetryAuthFail`
means a telemetry POST actually performed this tick came back 401;
`refreshDue` is `millis() - lastScheduleCheckMs > SCHEDULE_REFRESH_INTERVAL_MS`;
`portal` is a config-portal form submission (the `apikey` field). -/
structure TickInput where
  serial : Option SerialCmd
  buttonLevel : Bool
  motion : Bool
  potValue : Int
  nowMs : Nat
  nowSec : Int
  fetchOutcome : FetchOutcome
  telemetryAuthFail : Bool
  refreshDue : Bool
  portal : Option String
  deriving Repr, DecidableEq

/-- Embeds `setSerialCommands()`: `status` and an invalid command change
nothing, `fetch` forces a fetch, `reset_key` clears the stored key and
restarts, `time ...` sets the wall clock (external to `Sys`). -/
def serialApply (g : Int) (i : TickInput) (s : Sys) : Sys :=
  match i.serial with
  | some .fetchCmd => fetchApply g i.fetchOutcome s
  | some .resetKey => { s with storedKey := some "", halted := true }
  | _ => s

/-- Applies `handleTimeJump()` within the tick: apply the state update and, when
the forward threshold was crossed, the triggered `fetchSchedule()`. -/
def timeJumpApply (g : Int) (i : TickInput) (s : Sys) : Sys :=
  let r := handleTimeJump s.st s.sched i.nowSec
  let s1 := { s with st := r.1 }
  if r.2 then fetchApply g i.fetchOutcome s1 else s1

/-- Applies `handleButton()` within the tick, with the `sendTelemetry`
side-channel: a 401 on an actually-sent telemetry event enters config
mode. -/
def buttonApply (i : TickInput) (s : Sys) : Sys :=
  let r := handleButton s.btn s.st i.buttonLevel i.nowMs
  let s1 := { s with btn := r.1, st := r.2.1 }
  if !r.2.2.isEmpty && i.telemetryAuthFail then enterConfigModeSys s1 else s1

/-- Applies `handleMotion()` within the tick, with the same telemetry
side-channel. -/
def motionApply (i : TickInput) (s : Sys) : Sys :=
  let r := handleMotion s.st s.sched i.motion i.nowMs i.nowSec
  let s1 := { s with st := r.1 }
  if !r.2.isEmpty && i.telemetryAuthFail then enterConfigModeSys s1 else s1

/-- Applies `handleBrightnessPot()` within the tick. -/
def potApply (i : TickInput) (s : Sys) : Sys :=
  { s with st := handleBrightnessPot s.st i.potValue }

/-- One iteration of `loop()` when not in config mode: serial commands,
time-jump reconciliation, button, motion, potentiometer, then the
periodic schedule refresh. -/
def normalTick (g : Int) (i : TickInput) (s : Sys) : Sys :=
  let s1 := serialApply g i s
  let s2 := timeJumpApply g i s1
  let s3 := buttonApply i s2
  let s4 := motionApply i s3
  let s5 := potApply i s4
  if i.refreshDue then fetchApply g i.fetchOutcome s5 else s5

/-- One iteration of `loop()` when in config mode: only
`server.handleClient()` runs.  A submitted key of the required length is
persisted and the device restarts (`halted`); any other submission is
rejected with a 400 and changes nothing. -/
def portalTick (i : TickInput) (s : Sys) : Sys :=
  match i.portal with
  | none => s
  | some key =>
    if key.length = API_KEY_LENGTH then { s with storedKey := some key, halted := true }
    else s

/-- One iteration of `loop()`. -/
def loopTick (g : Int) (i : TickInput) (s : Sys) : Sys :=
  if s.halted then s
  else if s.isInConfigMode then portalTick i s
  else normalTick g i s

/-- Run `loop()` over a sequence of tick inputs. -/
def runTicks (g : Int) (s : Sys) : List TickInput → Sys
  | [] => s
  | i :: rest => runTicks g (loopTick g i s) rest

/-- The device as it boots (globals' initializers). -/
def initialSys : Sys :=
  { isInConfigMode := false
    halted := false
    st := initialState
    sched := initialSchedule
    btn := { lastButtonState := true, lastButtonPressMs := 0 }
    storedKey := none }

/-- A quiescent tick input: no serial command, button released, no
motion, pot at zero, no fetch possible, nothing due. -/
def idleInput : TickInput :=
  { serial := none
    buttonLevel := true
    motion := false
    potValue := 0
    nowMs := 0
    nowSec := 0
    fetchOutcome := .noWifi
    telemetryAuthFail := false
    refreshDue := false
    portal := none }

/-- A schedule with night mode enabled over the whole day and a
`minColorTemp` different from the firmware constant `MIN_COLOR_TEMP_K`. -/
def nightSchedule : LightingSchedule :=
  { initialSchedule with
    minColorTemp := 2000
    nightModeEnabled := true
    sleepStartUtcSeconds := 0
    sleepEndUtcSeconds := 86400
    points := [{ timestamp := 0, colorTemp := 2700 }] }

/-- A schedule whose motion timeout (7200 s) exceeds the one-hour
refetch threshold. -/
def slowTimeoutSchedule : LightingSchedule :=
  { initialSchedule with motionTimeoutSeconds := 7200 }

/-! ## Claims -/

/-- C1: for the two-point schedule (day-seconds 0 at 2700K, 43200 at
6500K) with the night override inactive, the lookup returns 4600 at
day-seconds 21600 (linear interpolation), 6500 at day-seconds 50000
(flat last-point fallback, no wrap interpolation), and for every time
the lookup returns the default 3500K whenever no schedule is loaded or
the point count is zero. -/
theorem C1_schedule_lookup :
    getCurrentColorTemp loadedState twoPointSchedule 21600 = 4600
    ∧ getCurrentColorTemp loadedState twoPointSchedule 50000 = 6500
    ∧ ∀ (st : DeviceState) (sched : LightingSchedule) (now : Int),
        st.scheduleLoaded = false ∨ sched.points.length = 0 →
        getCurrentColorTemp st sched now = DEFAULT_COLOR_TEMP_K := by
  refine ⟨by decide, by decide, ?_⟩
  intro st sched now h
  unfold getCurrentColorTemp
  rcases h with h | h <;> simp [h]

/-- Witness for C1: the unloaded initial state gets the default at an
arbitrary concrete time. -/
theorem C1_schedule_lookup_witness :
    getCurrentColorTemp initialState twoPointSchedule 5 = DEFAULT_COLOR_TEMP_K :=
  C1_schedule_lookup.2.2 initialState twoPointSchedule 5 (Or.inl rfl)

/-- C2 counterexample: with night mode active the lookup returns the
firmware constant `MIN_COLOR_TEMP_K` (1000 K), not the schedule
metadata's `minColorTemp` (2000 K here) as the claim states. -/
theorem C2_counterexample :
    getCurrentColorTemp loadedState nightSchedule 100 ≠ nightSchedule.minColorTemp := by
  decide

/-- C2 (amended): for every loaded schedule with at least one point, if
night mode is enabled and the current time is in the night window, the
lookup returns the firmware's fixed minimum color temperature constant
`MIN_COLOR_TEMP_K`, taking precedence over point interpolation. -/
theorem C2_night_override_amended :
    ∀ (st : DeviceState) (sched : LightingSchedule) (now : Int),
      st.scheduleLoaded = true → sched.points.length ≠ 0 →
      sched.nightModeEnabled = true → isNightTime sched now = true →
      getCurrentColorTemp st sched now = MIN_COLOR_TEMP_K := by
  intro st sched now h1 h2 h3 h4
  unfold getCurrentColorTemp
  simp [h1, h2, h3, h4]

/-- Witness for the amended C2 at a concrete night instant. -/
theorem C2_night_override_amended_witness :
    getCurrentColorTemp loadedState nightSchedule 100 = MIN_COLOR_TEMP_K :=
  C2_night_override_amended loadedState nightSchedule 100 rfl (by decide) rfl (by decide)

/-- C3 evaluation: at the epoch instant 1756641900 (August 2025), with
the light on since uptime 0, Auto mode, the default 300 s timeout and a
declared jump, the elapsed time since last-seen motion recomputed with
the new `now` (about 1.76e9 s) vastly exceeds the timeout — the claim
and the source's own comment say the light must be turned off — yet the
32-bit `unsigned long` holding `(now - motionLastSeenMs / 1000) * 1000`
wraps to 275936 ≤ 300000 and `handleTimeJump` leaves the light on. -/
theorem C3_time_jump_expiry_bug :
    (((1756641900 - initialState.lastKnownTimeSeconds).natAbs : Int)
        > initialSchedule.motionTimeoutSeconds)
    ∧ ({ initialState with lightIsOn := true } : DeviceState).lightIsOn = true
    ∧ ({ initialState with lightIsOn := true } : DeviceState).modeAuto = true
    ∧ 1756641900 - ((initialState.motionLastSeenMs / 1000 : Nat) : Int)
        > initialSchedule.motionTimeoutSeconds
    ∧ ((1756641900 - ((initialState.motionLastSeenMs / 1000 : Nat) : Int)) * 1000)
        % UNSIGNED_LONG_MOD = 275936
    ∧ (handleTimeJump { initialState with lightIsOn := true } initialSchedule
        1756641900).1.lightIsOn = true := by
  decide

/-- C4 counterexample: with `motionTimeoutSeconds = 7200`, a forward
jump of 4000 s (above the 3600 s threshold) does not trigger a refetch,
because the refetch check is nested inside the jump-declared branch —
refuting "a forward jump above one hour always triggers a refetch, for
every value of motionTimeoutSeconds". -/
theorem C4_counterexample :
    (handleTimeJump initialState slowTimeoutSchedule 4000).2 = false
    ∧ 4000 - initialState.lastKnownTimeSeconds > TIME_JUMP_REFETCH_THRESHOLD_SEC := by
  decide

/-- C4 (amended): a time jump triggers a schedule refetch exactly when a
jump is declared (absolute difference above the motion timeout) and the
jump is forward by more than one hour; in particular backward or small
forward jumps never trigger a refetch, and for motion timeouts below
3600 s the condition is exactly "forward and above one hour". -/
theorem C4_refetch_amended :
    ∀ (st : DeviceState) (sched : LightingSchedule) (now : Int),
      (handleTimeJump st sched now).2 = true ↔
        ((((now - st.lastKnownTimeSeconds).natAbs : Int) > sched.motionTimeoutSeconds)
          ∧ now > st.lastKnownTimeSeconds + TIME_JUMP_REFETCH_THRESHOLD_SEC) := by
  intro st sched now
  have habs : ((now - st.lastKnownTimeSeconds).natAbs : Int) = |now - st.lastKnownTimeSeconds| :=
    (Int.abs_eq_natAbs _).symm
  rw [habs]
  by_cases hd : sched.motionTimeoutSeconds < |now - st.lastKnownTimeSeconds|
  · simp [handleTimeJump, hd]
  · simp [handleTimeJump, hd]

/-- Witness for the amended C4: a 4000 s forward jump with the default
300 s timeout does refetch. -/
theorem C4_refetch_amended_witness :
    (handleTimeJump initialState initialSchedule 4000).2 = true :=
  (C4_refetch_amended initialState initialSchedule 4000).mpr (by decide)

/-- C10: whenever the pair scan of the schedule lookup takes the
interpolation branch for a pair `(points[i], points[i+1])`, the divisor
`daySeconds(i+1) - daySeconds(i)` of `interpSegment` is strictly
positive — the guard `daySeconds(i) ≤ currentDaySeconds <
daySeconds(i+1)` rules out equal or decreasing day-seconds, so the
division is never by zero, for every stored point sequence including
unsorted or duplicated day-seconds. -/
theorem C10_segment_divisor_pos :
    ∀ (ps : List SchedulePoint) (cur : Nat) (p1 p2 : SchedulePoint),
      findSegment ps cur = some (p1, p2) →
      0 < (daySeconds p2.timestamp : Int) - (daySeconds p1.timestamp : Int) := by
  intro ps
  induction ps with
  | nil => intro cur p1 p2 h; simp [findSegment] at h
  | cons a rest ih =>
    intro cur p1 p2 h
    cases rest with
    | nil => simp [findSegment] at h
    | cons b rest' =>
      simp only [findSegment] at h
      split at h
      case isTrue hc =>
        injection h with h'
        injection h' with ha hb
        subst ha
        subst hb
        omega
      case isFalse hc =>
        exact ih cur p1 p2 h

/-- Witness for C10 at the concrete matched pair of the two-point
schedule. -/
theorem C10_segment_divisor_pos_witness :
    0 < ((daySeconds ({ timestamp := 43200, colorTemp := 6500 } : SchedulePoint).timestamp : Int)
      - (daySeconds ({ timestamp := 0, colorTemp := 2700 } : SchedulePoint).timestamp : Int)) :=
  C10_segment_divisor_pos twoPointSchedule.points 21600 _ _ (by decide)

/-- An HTTP 200 response whose body is not valid JSON
(`deserializeJson` fails). -/
def badJsonPayload : RawPayload :=
  { jsonValid := false
    profileId := 7
    sleepStart := 0
    sleepEnd := 0
    minColorTemp := 2000
    maxColorTemp := 6500
    nightModeEnabled := false
    motionTimeoutSeconds := 300
    generatedAtParse := some 1700000000
    validUntilParse := some 1700086400
    points := [] }

/-- An HTTP 200 response with valid JSON whose `valid_until` timestamp
and whose single point's `utc` timestamp are not parseable by
`strptime`. -/
def malformedTimestampPayload : RawPayload :=
  { jsonValid := true
    profileId := 7
    sleepStart := 0
    sleepEnd := 0
    minColorTemp := 2000
    maxColorTemp := 6500
    nightModeEnabled := false
    motionTimeoutSeconds := 300
    generatedAtParse := some 1700000000
    validUntilParse := none
    points := [{ utcParse := none, temp := 2700 }] }

/-- C5 evaluation: `fetchSchedule` discards the fetch only when the JSON
itself fails to parse.  A payload with valid JSON but an unparseable
`valid_until` timestamp is still committed wholesale — the profile id
changes, the schedule is marked loaded, and the unparseable timestamp
field receives an arbitrary value `g` (the uninitialized `struct tm`
fed to `mktime`) — contradicting the claim that such a fetch is
discarded and the previous schedule stays authoritative. -/
theorem C5_malformed_fetch_committed :
    ∀ g : Int,
      fetchApply g (.ok badJsonPayload) initialSys = initialSys
      ∧ (fetchApply g (.ok malformedTimestampPayload) initialSys).sched.profileId = 7
      ∧ (fetchApply g (.ok malformedTimestampPayload) initialSys).st.scheduleLoaded = true
      ∧ (fetchApply g (.ok malformedTimestampPayload) initialSys).sched.validUntil = g
      ∧ malformedTimestampPayload.validUntilParse = none
      ∧ initialSys.sched.profileId = 0 := by
  intro g
  exact ⟨rfl, rfl, rfl, rfl, rfl, rfl⟩

/-- C6: in Auto mode with the light off, a motion rising edge turns the
light on, stamps `motionLastSeenMs` with now, sets the color
temperature from the schedule lookup and emits `motion_detected`; with
motion absent the light stays on while the elapsed time since last-seen
motion is within the timeout, turns off with a single `motion_timeout`
event as soon as it exceeds it, and once the light is off no sequence
of motion-free ticks ever emits anything; in Manual mode motion input
changes nothing. -/
theorem C6_motion_spec :
    (∀ (st : DeviceState) (sched : LightingSchedule) (nowMs : Nat) (nowSec : Int),
      st.modeAuto = true → st.lightIsOn = false →
      handleMotion st sched true nowMs nowSec =
        ({ st with
            lightIsOn := true
            motionLastSeenMs := nowMs
            currentColorTemp := getCurrentColorTemp st sched nowSec
            scheduleExpiredWarned := lookupWarned st sched nowSec }, [Event.motionDetected]))
    ∧ (∀ (st : DeviceState) (sched : LightingSchedule) (nowMs : Nat) (nowSec : Int),
        st.modeAuto = true → st.lightIsOn = true →
        nowMs - st.motionLastSeenMs ≤ sched.motionTimeoutSeconds.toNat * 1000 →
        handleMotion st sched false nowMs nowSec = (st, []))
    ∧ (∀ (st : DeviceState) (sched : LightingSchedule) (nowMs : Nat) (nowSec : Int),
        st.modeAuto = true → st.lightIsOn = true →
        nowMs - st.motionLastSeenMs > sched.motionTimeoutSeconds.toNat * 1000 →
        handleMotion st sched false nowMs nowSec =
          ({ st with lightIsOn := false }, [Event.motionTimeout]))
    ∧ (∀ (st : DeviceState) (sched : LightingSchedule) (ticks : List MotionTick),
        st.lightIsOn = false → (∀ t ∈ ticks, t.motion = false) →
        runMotion st sched ticks = (st, []))
    ∧ (∀ (st : DeviceState) (sched : LightingSchedule) (motion : Bool) (nowMs : Nat) (nowSec : Int),
        st.modeAuto = false →
        handleMotion st sched motion nowMs nowSec = (st, [])) := by
  refine ⟨?_, ?_, ?_, ?_, ?_⟩
  · intro st sched nowMs nowSec hauto hoff
    simp [handleMotion, hauto, hoff]
  · intro st sched nowMs nowSec hauto hon hle
    have hng : ¬ (nowMs - st.motionLastSeenMs > sched.motionTimeoutSeconds.toNat * 1000) :=
      not_lt.mpr hle
    simp [handleMotion, hauto, hon, hng]
  · intro st sched nowMs nowSec hauto hon hgt
    simp [handleMotion, hauto, hon, hgt]
  · intro st sched ticks hoff hall
    induction ticks with
    | nil => simp [runMotion]
    | cons t rest ih =>
      have hm : t.motion = false := hall t (List.mem_cons_self t rest)
      have hstep : handleMotion st sched t.motion t.nowMs t.nowSec = (st, []) := by
        rw [hm]
        by_cases hauto : st.modeAuto = true
        · simp [handleMotion, hauto, hoff]
        · simp [handleMotion, Bool.eq_false_iff.mpr hauto]
      have hrest := ih fun t ht => hall t (List.mem_cons_of_mem _ ht)
      simp [runMotion, hstep, hrest]
  · intro st sched motion nowMs nowSec hman
    simp [handleMotion, hman]

/-- Witness for C6: Manual mode ignores a motion level at a concrete
tick. -/
theorem C6_motion_spec_witness :
    handleMotion { initialState with modeAuto := false } initialSchedule true 5 5 =
      ({ initialState with modeAuto := false }, []) :=
  C6_motion_spec.2.2.2.2 { initialState with modeAuto := false } initialSchedule true 5 5 rfl

/-- A single `loop()` iteration never clears the config-mode flag: when
the flag is set, only the portal handler runs, and it leaves the flag
untouched (a valid key submission restarts the process instead). -/
theorem loopTick_keeps_configMode (g : Int) (i : TickInput) (s : Sys)
    (h : s.isInConfigMode = true) : (loopTick g i s).isInConfigMode = true := by
  unfold loopTick
  by_cases hh : s.halted = true
  · simp [hh, h]
  · simp only [Bool.eq_false_iff.mpr hh]
    simp only [h]
    unfold portalTick
    cases hp : i.portal with
    | none => simpa using h
    | some key =>
      by_cases hl : key.length = API_KEY_LENGTH
      · simp [hl, h]
      · simp [hl, h]

/-- C7: config fallback is sticky — from any whole-device state with
the config-mode flag set, running `loop()` over any sequence of tick
inputs (serial commands, button, motion, potentiometer, fetch outcomes,
portal submissions) leaves the flag set; only a restart (modelled as
`halted`) leaves the running process. -/
theorem C7_config_sticky :
    ∀ (g : Int) (s : Sys) (inputs : List TickInput),
      s.isInConfigMode = true → (runTicks g s inputs).isInConfigMode = true := by
  intro g s inputs
  induction inputs generalizing s with
  | nil => intro h; simpa [runTicks] using h
  | cons i rest ih =>
    intro h
    simp only [runTicks]
    exact ih _ (loopTick_keeps_configMode g i s h)

/-- Witness for C7: two quiescent ticks from a config-mode state. -/
theorem C7_config_sticky_witness :
    (runTicks 0 { initialSys with isInConfigMode := true }
      [idleInput, idleInput]).isInConfigMode = true :=
  C7_config_sticky 0 { initialSys with isInConfigMode := true } [idleInput, idleInput] rfl

/-- C8: a press is accepted only on a falling edge with more than the
200 ms debounce window elapsed since the previously accepted press (so
at least 200 ms after it); an accepted press toggles the mode, forcing
the light off on entering Auto and on at the default color temperature
on entering Manual; and two presses within 200 ms of each other
register as exactly one mode toggle. -/
theorem C8_button_spec :
    (∀ (ctx : ButtonCtx) (st : DeviceState) (level : Bool) (nowMs : Nat),
      ¬(level = false ∧ ctx.lastButtonState = true
          ∧ nowMs - ctx.lastButtonPressMs > BUTTON_DEBOUNCE_MS) →
      handleButton ctx st level nowMs =
        ({ lastButtonState := level, lastButtonPressMs := ctx.lastButtonPressMs }, st, []))
    ∧ (∀ (ctx : ButtonCtx) (st : DeviceState) (nowMs : Nat),
        ctx.lastButtonState = true → nowMs - ctx.lastButtonPressMs > BUTTON_DEBOUNCE_MS →
        handleButton ctx st false nowMs =
          ({ lastButtonState := false, lastButtonPressMs := nowMs },
           (if st.modeAuto then
              { st with modeAuto := false, lightIsOn := true,
                        currentColorTemp := DEFAULT_COLOR_TEMP_K }
            else { st with modeAuto := true, lightIsOn := false }),
           [Event.modeChange]))
    ∧ (∀ (ctx0 : ButtonCtx) (st0 : DeviceState) (t1 t2 tr : Nat),
        ctx0.lastButtonState = true → t1 - ctx0.lastButtonPressMs > BUTTON_DEBOUNCE_MS →
        t1 ≤ t2 → t2 - t1 ≤ BUTTON_DEBOUNCE_MS →
        (let r1 := handleButton ctx0 st0 false t1
         let r2 := handleButton r1.1 r1.2.1 true tr
         let r3 := handleButton r2.1 r2.2.1 false t2
         r3.2.1 = r1.2.1 ∧ r3.2.1.modeAuto = !st0.modeAuto ∧ r3.2.2 = [])) := by
  refine ⟨?_, ?_, ?_⟩
  · intro ctx st level nowMs hrej
    unfold handleButton
    rcases Decidable.em (level = false) with hl | hl
    · rcases Decidable.em (ctx.lastButtonState = true) with hb | hb
      · have ht : ¬ (nowMs - ctx.lastButtonPressMs > BUTTON_DEBOUNCE_MS) :=
          fun ht => hrej ⟨hl, hb, ht⟩
        simp [hl, hb, ht]
      · simp [hl, Bool.eq_false_iff.mpr hb]
    · have hl' : level = true := by
        cases level
        · exact absurd rfl hl
        · rfl
      simp [hl']
  · intro ctx st nowMs hb ht
    unfold handleButton
    by_cases hm : st.modeAuto = true
    · simp [hb, ht, hm]
    · simp [hb, ht, Bool.eq_false_iff.mpr hm]
  · intro ctx0 st0 t1 t2 tr hb ht hle hclose
    have h2 : ¬ (t2 - t1 > BUTTON_DEBOUNCE_MS) := not_lt.mpr hclose
    by_cases hm : st0.modeAuto = true
    · simp [handleButton, hb, ht, hm, h2]
    · simp [handleButton, hb, ht, Bool.eq_false_iff.mpr hm, h2]

/-- Witness for C8: a press accepted at 300 ms followed by a release and
a second press at 400 ms (within the debounce window) toggles the mode
exactly once. -/
theorem C8_button_spec_witness :
    (let r1 := handleButton { lastButtonState := true, lastButtonPressMs := 0 } initialState false 300
     let r2 := handleButton r1.1 r1.2.1 true 350
     let r3 := handleButton r2.1 r2.2.1 false 400
     r3.2.1 = r1.2.1 ∧ r3.2.1.modeAuto = !initialState.modeAuto ∧ r3.2.2 = []) :=
  C8_button_spec.2.2 { lastButtonState := true, lastButtonPressMs := 0 } initialState 300 400 350
    rfl (by decide) (by decide) (by decide)

/-- C9: for every potentiometer tick with mapped brightness `b`: at or
below the 10% off threshold the stored brightness is forced to 0
(bypassing hysteresis) and the light is off afterwards whenever the
mode is not Auto (in Auto the light is untouched); above the threshold
a Manual-mode light that is off is turned back on; and above the
threshold the stored brightness is committed exactly when the change
from the last committed value exceeds the 5-point hysteresis band. -/
theorem C9_pot_spec :
    ∀ (st : DeviceState) (potValue : Int),
      (arduinoMap potValue 0 ANALOG_MAX_VALUE 0 100 ≤ BRIGHTNESS_OFF_THRESHOLD_PERCENT →
        (handleBrightnessPot st potValue).currentBrightnessPercent = 0
        ∧ (st.modeAuto = false → (handleBrightnessPot st potValue).lightIsOn = false)
        ∧ (st.modeAuto = true → (handleBrightnessPot st potValue).lightIsOn = st.lightIsOn))
      ∧ (arduinoMap potValue 0 ANALOG_MAX_VALUE 0 100 > BRIGHTNESS_OFF_THRESHOLD_PERCENT →
          st.modeAuto = false → st.lightIsOn = false →
          (handleBrightnessPot st potValue).lightIsOn = true)
      ∧ (arduinoMap potValue 0 ANALOG_MAX_VALUE 0 100 > BRIGHTNESS_OFF_THRESHOLD_PERCENT →
          (handleBrightnessPot st potValue).currentBrightnessPercent =
            if ((arduinoMap potValue 0 ANALOG_MAX_VALUE 0 100
                  - st.currentBrightnessPercent).natAbs : Int) > BRIGHTNESS_CHANGE_THRESHOLD_PERCENT
            then arduinoMap potValue 0 ANALOG_MAX_VALUE 0 100
            else st.currentBrightnessPercent) := by
  intro st potValue
  refine ⟨?_, ?_, ?_⟩
  · intro hlo
    refine ⟨?_, ?_, ?_⟩
    · simp [handleBrightnessPot, hlo]
    · intro hman
      by_cases hon : st.lightIsOn = true
      · simp [handleBrightnessPot, hlo, hon, hman]
      · simp [handleBrightnessPot, hlo, Bool.eq_false_iff.mpr hon]
    · intro hauto
      simp [handleBrightnessPot, hlo, hauto]
  · intro hhi hman hoff
    have hnlo : ¬ (arduinoMap potValue 0 ANALOG_MAX_VALUE 0 100 ≤ BRIGHTNESS_OFF_THRESHOLD_PERCENT) :=
      not_le.mpr hhi
    by_cases hhy : BRIGHTNESS_CHANGE_THRESHOLD_PERCENT <
        |arduinoMap potValue 0 ANALOG_MAX_VALUE 0 100 - st.currentBrightnessPercent|
    · simp [handleBrightnessPot, hnlo, hman, hoff, hhi, hhy]
    · simp [handleBrightnessPot, hnlo, hman, hoff, hhi, hhy]
  · intro hhi
    have hnlo : ¬ (arduinoMap potValue 0 ANALOG_MAX_VALUE 0 100 ≤ BRIGHTNESS_OFF_THRESHOLD_PERCENT) :=
      not_le.mpr hhi
    by_cases hturn : st.modeAuto = false ∧ st.lightIsOn = false
    · by_cases hhy : BRIGHTNESS_CHANGE_THRESHOLD_PERCENT <
          |arduinoMap potValue 0 ANALOG_MAX_VALUE 0 100 - st.currentBrightnessPercent|
      · simp [handleBrightnessPot, hnlo, hturn.1, hturn.2, hhi, hhy]
      · simp [handleBrightnessPot, hnlo, hturn.1, hturn.2, hhi, hhy]
    · by_cases hhy : BRIGHTNESS_CHANGE_THRESHOLD_PERCENT <
          |arduinoMap potValue 0 ANALOG_MAX_VALUE 0 100 - st.currentBrightnessPercent|
      · simp [handleBrightnessPot, hnlo, hturn, hhi, hhy]
      · simp [handleBrightnessPot, hnlo, hturn, hhi, hhy]

/-- Witness for C9: the pot at its minimum raw value clears the stored
brightness and leaves the (Auto-mode) light untouched. -/
theorem C9_pot_spec_witness :
    (handleBrightnessPot initialState 0).currentBrightnessPercent = 0
    ∧ (handleBrightnessPot initialState 0).lightIsOn = initialState.lightIsOn :=
  ⟨((C9_pot_spec initialState 0).1 (by decide)).1,
   ((C9_pot_spec initialState 0).1 (by decide)).2.2 rfl⟩

end LumiRum
